import Mathlib

/-!
Verification model of the `div` pane library (repository `panes`).

The repository source available is `src/lib.rs` (the public entry layer).
The internal modules it uses (`state.rs`, `storage.rs`, `class.rs`,
`error.rs`, `style.rs`, `pane.rs`, `div_handle.rs`, `global.rs`,
`utils.rs`) are not available, so their behaviour is modelled from the
specification (each such definition carries a doc comment starting with
`Modelled from the spec:`).  Everything that lives in `lib.rs` itself
(argument order, error short-circuiting with `?`, the `.unwrap()` in
`JsClass::preregistered`, the step order of `init_ex_with_element`,
`from_js_class`, `load_js_class`, `new`, `new_styled`) is transcribed
from that file.

Conventions of the shallow embedding:
* The process-global mutable state becomes an explicit `World` value
  threaded through every operation.
* Rust `Result<T, DivError>` becomes `Except DivError T`.
* A Rust panic (`unwrap` of an `Err`) is modelled by `Option.none` in a
  dedicated `unwrapRes` wrapper.
* `f64` zoom factors become `ℚ`; every concrete zoom value appearing in
  the claims (1.0, 2.0) and all products with small integers are exact
  in IEEE double precision, so the rational model is faithful there.
* Asynchronous futures of the class loader are modelled by their shared
  key (the `src` string); the eventual value of the future for `src` is
  read off the registry once the fetch for `src` has completed.
-/

/-- Error type of the library.  Modelled from the spec: `error.rs` is not
in the sources; the variants are the spec's §7 taxonomy plus `Undefined`
for failures the spec leaves unspecified (document access, stylesheet
injection). -/
inductive DivError where
  | NotInitialized
  | AlreadyInitialized
  | MissingRoot (id : String)
  | MissingBody
  | UnknownHandle
  | UnknownClassHandle
  | ModuleLoadFailed
  | ExportNotFound
  | Undefined
deriving DecidableEq, Repr

/-- A DOM element, identified abstractly. -/
structure Element where
  eid : String
deriving DecidableEq, Repr

/-- The document: an id → element table and an optional body element. -/
structure Doc where
  byId : List (String × Element)
  body : Option Element
deriving DecidableEq, Repr

/-- Association-list lookup (first binding wins), used for every
name-keyed table of the model. -/
def lookupA {κ α : Type} [DecidableEq κ] (k : κ) : List (κ × α) → Option α
  | [] => none
  | (k₀, v) :: rest => if k = k₀ then some v else lookupA k rest

/-- One pane record.  Modelled from the spec: `pane.rs`/`storage.rs` are
not in the sources; per §3 a record keeps the logical rectangle, the html
payload, the class-list string and the inline style string.  `nodeRect`
is the final rectangle last handed to the renderer (§4.2's Coordinate
Transform output), kept so that zoom changes are observable. -/
structure Pane where
  x : Int
  y : Int
  w : Nat
  h : Nat
  html : String
  classes : String
  css : String
  nodeRect : ℚ × ℚ × ℚ × ℚ
deriving DecidableEq, Repr

/-- Pane storage.  Modelled from the spec: `storage.rs` is not in the
sources; per §2/§3 it is a handle → record map issuing monotonically
unique integer handles that are never reused. -/
structure PaneHashMap where
  nextId : Nat
  panes : List (Nat × Pane)
deriving DecidableEq, Repr

def PaneHashMap.empty : PaneHashMap := { nextId := 0, panes := [] }

/-- Modelled from the spec: insertion allocates the fresh handle
`nextId`, stores the record under it and bumps the counter. -/
def PaneHashMap.insert (m : PaneHashMap) (p : Pane) : Nat × PaneHashMap :=
  (m.nextId, { nextId := m.nextId + 1, panes := (m.nextId, p) :: m.panes })

/-- Modelled from the spec: removal deletes the record and leaves the
handle counter untouched (handles are never reused). -/
def PaneHashMap.remove (m : PaneHashMap) (ph : Nat) : PaneHashMap :=
  { m with panes := m.panes.filter (fun kp => kp.1 ≠ ph) }

/-- Class registry and loader state.  Modelled from the spec: `class.rs`
is not in the sources; per §3/§4.3 it keeps a `loaded` name → handle map,
a `pending` table keyed by source string (holding the names requested by
the load that initiated the fetch, whose shared future all requesters of
that source receive), and — once a fetch completes — the resolved handle
list per source (`completed`, the value of the shared future).
`fetches` is the history of external fetches issued, recorded so that
the at-most-once-per-source property can be stated. -/
structure JsClassStorage where
  loaded : List (String × Nat)
  pending : List (String × List String)
  completed : List (String × List Nat)
  fetches : List String
  nextHandle : Nat
deriving DecidableEq, Repr

def JsClassStorage.empty : JsClassStorage :=
  { loaded := [], pending := [], completed := [], fetches := [], nextHandle := 0 }

/-- Modelled from the spec: `src` "already has a pending or completed
load recorded" (§4.3 step 1). -/
def JsClassStorage.recorded (l : JsClassStorage) (src : String) : Bool :=
  (lookupA src l.pending).isSome || (lookupA src l.completed).isSome

/-- Modelled from the spec: `load` (§4.3).  If `src` is already recorded
the existing load is reused (no new fetch); otherwise the external fetch
is issued and a pending entry keyed by `src` is created.  The returned
future is identified by `src`: it is shared by all requesters for that
source. -/
def JsClassStorage.load (l : JsClassStorage) (names : List String) (src : String) :
    Except DivError String × JsClassStorage :=
  if l.recorded src then (Except.ok src, l)
  else
    (Except.ok src,
      { l with pending := (src, names) :: l.pending, fetches := src :: l.fetches })

/-- Modelled from the spec: on fetch completion, "for each requested
`name`, resolve (or create, if not already present) a ClassHandle,
register it in `loaded`" (§4.3 step 3).  Returns the ordered handle
list, the updated `loaded` map and the next fresh handle. -/
def resolveNames (names : List String) (loaded : List (String × Nat)) (nh : Nat) :
    List Nat × List (String × Nat) × Nat :=
  match names with
  | [] => ([], loaded, nh)
  | n :: rest =>
    match lookupA n loaded with
    | some hdl =>
      let r := resolveNames rest loaded nh
      (hdl :: r.1, r.2.1, r.2.2)
    | none =>
      let r := resolveNames rest ((n, nh) :: loaded) (nh + 1)
      (nh :: r.1, r.2.1, r.2.2)

/-- Modelled from the spec: completion of the external fetch for `src`
(§4.3 step 3): resolve the names recorded with the pending entry,
register them, drop the pending entry and resolve the shared future
with the ordered handle list. -/
def JsClassStorage.complete (l : JsClassStorage) (src : String) : JsClassStorage :=
  match lookupA src l.pending with
  | none => l
  | some names =>
    let r := resolveNames names l.loaded l.nextHandle
    { loaded := r.2.1,
      pending := l.pending.filter (fun kv => kv.1 ≠ src),
      completed := (src, r.1) :: l.completed,
      fetches := l.fetches,
      nextHandle := r.2.2 }

/-- The eventual value of the shared future for `src`: defined once the
fetch for `src` has completed. -/
def futureValue (src : String) (l : JsClassStorage) : Option (List Nat) :=
  lookupA src l.completed

/-- Modelled from the spec: `preloaded(name)` is a synchronous lookup
against `loaded` only (§4.3). -/
def JsClassStorage.preloaded (l : JsClassStorage) (name : String) : Option Nat :=
  lookupA name l.loaded

/-- The process-wide state object installed by initialization, as listed
in `init_ex_with_element` (`lib.rs`) and §3 of the spec. -/
structure GlobalState where
  root : Element
  nodes : PaneHashMap
  pos : Int × Int
  size : Option (Nat × Nat)
  zoom : ℚ × ℚ
  classes : JsClassStorage
deriving DecidableEq, Repr

/-- The Coordinate Transform of §4.2: `final_x = x*zoom_x + pos_x`,
`final_y = y*zoom_y + pos_y`, `final_w = w*zoom_x`, `final_h = h*zoom_y`.
Modelled from the spec: the transform lives in the missing
`pane.rs`/`style.rs`. -/
def transform (pos : Int × Int) (zoom : ℚ × ℚ) (x y : Int) (w h : Nat) :
    ℚ × ℚ × ℚ × ℚ :=
  ((x : ℚ) * zoom.1 + (pos.1 : ℚ),
   (y : ℚ) * zoom.2 + (pos.2 : ℚ),
   (w : ℚ) * zoom.1,
   (h : ℚ) * zoom.2)

/-- Modelled from the spec: `new_pane` (§4.2) allocates a fresh handle,
computes the final rectangle via the Coordinate Transform, materializes
the node with it and stores the record (logical rectangle plus style
strings). -/
def GlobalState.new_pane (s : GlobalState) (x y : Int) (w h : Nat)
    (html classes css : String) : Except DivError Nat × GlobalState :=
  let rect := transform s.pos s.zoom x y w h
  let p : Pane :=
    { x := x, y := y, w := w, h := h, html := html,
      classes := classes, css := css, nodeRect := rect }
  let r := s.nodes.insert p
  (Except.ok r.1, { s with nodes := r.2 })

/-- Modelled from the spec: `remove_pane` (§4.2) deletes the record and
fails with `UnknownHandle` on a handle that does not exist. -/
def GlobalState.remove_pane (s : GlobalState) (ph : Nat) :
    Except DivError Unit × GlobalState :=
  if s.nodes.panes.any (fun kp => kp.1 == ph) then
    (Except.ok (), { s with nodes := s.nodes.remove ph })
  else
    (Except.error DivError.UnknownHandle, s)

/-- Modelled from the spec: `set_zoom` (§4.2) updates the global zoom and
re-applies the Coordinate Transform to every stored logical rectangle. -/
def GlobalState.set_zoom (s : GlobalState) (zx zy : ℚ) : GlobalState :=
  { s with
    zoom := (zx, zy),
    nodes := { s.nodes with
      panes := s.nodes.panes.map (fun kp =>
        (kp.1, { kp.2 with nodeRect := transform s.pos (zx, zy) kp.2.x kp.2.y kp.2.w kp.2.h })) } }

/-- The world: the process-global environment.  `doc` is the browser
document (absent when no document is reachable), `state` the optional
global state singleton, `stylesInjected` counts executions of the
stylesheet-injection side effect, and `styleOk` is the environment's
verdict on the injection (the `?` on `add_div_styles_to_document()` in
`lib.rs` shows the step is fallible). -/
structure World where
  doc : Option Doc
  state : Option GlobalState
  stylesInjected : Nat
  styleOk : Bool
deriving DecidableEq, Repr

namespace state

/-- Modelled from the spec: `set_state` installs the singleton and fails
with `AlreadyInitialized` when called twice without teardown (§4.1). -/
def set_state (s : GlobalState) (w : World) : Except DivError Unit × World :=
  match w.state with
  | some _ => (Except.error DivError.AlreadyInitialized, w)
  | none => (Except.ok (), { w with state := some s })

/-- Modelled from the spec: the state accessor of §4.1 — it runs the
operation against the current state under the lock and fails with
`NotInitialized` when no state exists.  Mutations made by `f` persist
(Rust `&mut` semantics) whether `f` returns `Ok` or `Err`. -/
def exec_mut {α : Type} (f : GlobalState → Except DivError α × GlobalState)
    (w : World) : Except DivError α × World :=
  match w.state with
  | none => (Except.error DivError.NotInitialized, w)
  | some s =>
    let r := f s
    (r.1, { w with state := some r.2 })

/-- Modelled from the spec: handle-based class lookup; fails with
`UnknownClassHandle` when the handle was never issued by the registry
(§4.3).  The class value itself is opaque; the model returns the
handle. -/
def get_class (ch : Nat) (w : World) : Except DivError Nat × World :=
  exec_mut (fun s =>
    (if s.classes.loaded.any (fun nv => nv.2 == ch) then Except.ok ch
     else Except.error DivError.UnknownClassHandle, s)) w

end state

/-- Modelled from the spec: `utils::doc` returns the document or an
error when none is reachable (the spec does not name the error kind;
the model uses `Undefined`). -/
def doc (w : World) : Except DivError Doc :=
  match w.doc with
  | some d => Except.ok d
  | none => Except.error DivError.Undefined

/-- Modelled from the spec: the one-time stylesheet-injection side
effect (§6); fallible per the `?` in `lib.rs`.  On success it increments
the injection counter; on failure it changes nothing. -/
def add_div_styles_to_document (w : World) : Except DivError Unit × World :=
  if w.styleOk then (Except.ok (), { w with stylesInjected := w.stylesInjected + 1 })
  else (Except.error DivError.Undefined, w)

/-- Modelled from the spec: `init_div_rs` is an infallible external hook
(`global.rs` is not in the sources); it does not touch the model
state. -/
def init_div_rs (w : World) : World := w

/-- Transcribed from `lib.rs`: `init_ex_with_element` installs the global
state (fresh storages, identity zoom), then injects the stylesheet, then
calls `init_div_rs`; each fallible step short-circuits with `?`. -/
def init_ex_with_element (root : Element) (pos : Int × Int)
    (size : Option (Nat × Nat)) (w : World) : Except DivError Unit × World :=
  match state.set_state
      { root := root, nodes := PaneHashMap.empty, pos := pos, size := size,
        zoom := (1, 1), classes := JsClassStorage.empty } w with
  | (Except.error e, w₁) => (Except.error e, w₁)
  | (Except.ok _, w₁) =>
    match add_div_styles_to_document w₁ with
    | (Except.error e, w₂) => (Except.error e, w₂)
    | (Except.ok _, w₂) => (Except.ok (), init_div_rs w₂)

/-- Transcribed from `lib.rs`: `get_root` resolves the mount target, with
`MissingRoot(id)` when the id lookup fails and `MissingBody` when the
document has no body. -/
def get_root (id : Option String) (w : World) : Except DivError Element :=
  match id with
  | some i =>
    match doc w with
    | Except.error e => Except.error e
    | Except.ok d =>
      match lookupA i d.byId with
      | some e => Except.ok e
      | none => Except.error (DivError.MissingRoot i)
  | none =>
    match doc w with
    | Except.error e => Except.error e
    | Except.ok d =>
      match d.body with
      | some e => Except.ok e
      | none => Except.error DivError.MissingBody

/-- Transcribed from `lib.rs`: `init_ex` resolves the root first (with
`?`) and only then calls `init_ex_with_element`. -/
def init_ex (id : Option String) (pos : Int × Int) (size : Option (Nat × Nat))
    (w : World) : Except DivError Unit × World :=
  match get_root id w with
  | Except.error e => (Except.error e, w)
  | Except.ok root => init_ex_with_element root pos size w

/-- Transcribed from `lib.rs`: `init()` mounts to the body. -/
def init (w : World) : Except DivError Unit × World :=
  init_ex none (0, 0) none w

/-- Transcribed from `lib.rs`: `init_to(id)` mounts to the element with
the given id. -/
def init_to (id : String) (w : World) : Except DivError Unit × World :=
  init_ex (some id) (0, 0) none w

/-- Transcribed from `lib.rs`: `new` fixes `css = ""` and `classes = ""`
and forwards to `new_pane` through the state accessor (in the argument
order written in `lib.rs`, which passes `css` before `classes`). -/
def new (x y : Int) (w h : Nat) (html : String) (wd : World) :
    Except DivError Nat × World :=
  let css := ""
  let classes := ""
  state.exec_mut (fun s => s.new_pane x y w h html css classes) wd

/-- Transcribed from `lib.rs`: `new_styled` joins the inline-css pairs
as `"attr: val;"` fragments separated by spaces, joins the class list by
spaces, and forwards to `new_pane` through the state accessor. -/
def new_styled (x y : Int) (w h : Nat) (html : String)
    (classes : List String) (css : List (String × String)) (wd : World) :
    Except DivError Nat × World :=
  let css_str := String.intercalate " "
    (css.map (fun av => av.1 ++ ": " ++ av.2 ++ ";"))
  let classes_str := String.intercalate " " classes
  state.exec_mut (fun s => s.new_pane x y w h html classes_str css_str) wd

/-- Transcribed from `lib.rs`: `load_js_classes` forwards to the class
registry's `load` through the state accessor and hands back the (shared)
future. -/
def load_js_classes (classes : List String) (src : String) (w : World) :
    Except DivError String × World :=
  state.exec_mut (fun s =>
    let r := s.classes.load classes src
    (r.1, { s with classes := r.2 })) w

/-- Transcribed from `lib.rs`: `load_js_class` is `load_js_classes` on
the singleton list; the returned future awaits the shared future and
indexes element 0 of the resolved list. -/
def load_js_class (name src : String) (w : World) :
    Except DivError String × World :=
  load_js_classes [name] src w

/-- The value the future returned by `load_js_class` resolves to:
element 0 of the list the shared future for `src` resolves to
(`classes.await[0]` in `lib.rs`). -/
def load_js_class_value (src : String) (l : JsClassStorage) : Option Nat :=
  (futureValue src l).bind List.head?

/-- Modelled from the spec: `DivHandle::parent_element` (in the missing
`div_handle.rs`) resolves the handle to the pane's DOM node, failing with
`UnknownHandle` on a stale handle; the node itself is opaque here. -/
def parent_element (ph : Nat) (w : World) : Except DivError Unit × World :=
  state.exec_mut (fun s =>
    (if s.nodes.panes.any (fun kp => kp.1 == ph) then Except.ok ()
     else Except.error DivError.UnknownHandle, s)) w

/-- Transcribed from `lib.rs`: `from_js_class` creates an empty-html pane
first, resolves its node, then looks the class handle up; each step
short-circuits with `?` and no step undoes the pane creation.
`attach_new_instance` is a renderer-side effect that does not touch the
core state. -/
def from_js_class (x y : Int) (w h : Nat) (class_handle : Nat) (wd : World) :
    Except DivError Nat × World :=
  match new x y w h "" wd with
  | (Except.error e, w₁) => (Except.error e, w₁)
  | (Except.ok ph, w₁) =>
    match parent_element ph w₁ with
    | (Except.error e, w₂) => (Except.error e, w₂)
    | (Except.ok _, w₂) =>
      match state.get_class class_handle w₂ with
      | (Except.error e, w₃) => (Except.error e, w₃)
      | (Except.ok _, w₃) => (Except.ok ph, w₃)

/-- Rust's `Result::unwrap`: `none` models the panic on `Err`. -/
def unwrapRes {α : Type} : Except DivError α → Option α
  | Except.ok a => some a
  | Except.error _ => none

/-- Transcribed from `lib.rs`: `JsClass::preregistered` runs `preloaded`
through the state accessor and `.unwrap()`s the result.  The outer
`Option` is the panic channel of `unwrapRes`: `none` means the process
aborts. -/
def preregistered (name : String) (w : World) : Option (Option Nat) :=
  unwrapRes (state.exec_mut (fun s => (Except.ok (s.classes.preloaded name), s)) w).1

/-- The `exec_mut` result inside `preregistered` before the `.unwrap()`,
exposed so the panic can be traced to the `NotInitialized` error it
swallows. -/
def preregisteredRaw (name : String) (w : World) : Except DivError (Option Nat) :=
  (state.exec_mut (fun s => (Except.ok (s.classes.preloaded name), s)) w).1

/-- Lib-level `set_zoom`.  Modelled from the spec: §4.2's `set_zoom`
(not in `lib.rs`) goes through the state accessor like every pane
operation. -/
def set_zoom (zx zy : ℚ) (w : World) : Except DivError Unit × World :=
  state.exec_mut (fun s => (Except.ok (), s.set_zoom zx zy)) w

/-- The rendered rectangle of pane `ph`: the rectangle last handed to
the renderer for its node. -/
def renderedRect (ph : Nat) (w : World) : Option (ℚ × ℚ × ℚ × ℚ) :=
  match w.state with
  | none => none
  | some s => (lookupA ph s.nodes.panes).map Pane.nodeRect

/-! ### Traces

Operation sequences used to state the process-lifetime invariants:
pane creations interleaved with removals (claim about handle
uniqueness), and load requests interleaved with fetch completions
(claim about fetch deduplication). -/

/-- One pane operation of a process trace. -/
inductive PaneOp where
  | create (x y : Int) (w h : Nat) (html classes css : String)
  | destroy (ph : Nat)

/-- Run a trace of pane operations against a state, collecting the
handles issued by `new_pane` in order. -/
def runPanes (s : GlobalState) : List PaneOp → GlobalState × List Nat
  | [] => (s, [])
  | PaneOp.create x y w h html cls css :: rest =>
    let r := s.new_pane x y w h html cls css
    match r.1 with
    | Except.ok ph =>
      let t := runPanes r.2 rest
      (t.1, ph :: t.2)
    | Except.error _ => runPanes r.2 rest
  | PaneOp.destroy ph :: rest => runPanes (s.remove_pane ph).2 rest

/-- One event of the class-loading subsystem: a `load` request, or the
completion of the external fetch for a source. -/
inductive LoadEvent where
  | req (names : List String) (src : String)
  | done (src : String)

/-- Apply one load event to the registry. -/
def JsClassStorage.step (l : JsClassStorage) : LoadEvent → JsClassStorage
  | LoadEvent.req names src => (l.load names src).2
  | LoadEvent.done src => l.complete src

/-- Run a trace of load events from the empty registry. -/
def runLoader (evs : List LoadEvent) : JsClassStorage :=
  evs.foldl JsClassStorage.step JsClassStorage.empty

/-- Number of external fetches of `src` in a fetch history. -/
def countS (src : String) : List String → Nat
  | [] => 0
  | s :: rest => (if s = src then 1 else 0) + countS src rest

/-- Loader invariant: a recorded source has been fetched at most once,
an unrecorded source never. -/
def FetchInv (l : JsClassStorage) : Prop :=
  ∀ src, (l.recorded src = true → countS src l.fetches ≤ 1)
       ∧ (l.recorded src = false → countS src l.fetches = 0)

theorem lookupA_filter_ne {α : Type} (k k₀ : String) (xs : List (String × α))
    (hne : k ≠ k₀) :
    lookupA k (xs.filter (fun kv => kv.1 ≠ k₀)) = lookupA k xs := by
  induction xs with
  | nil => rfl
  | cons p rest ih =>
    rw [List.filter_cons]
    by_cases hp : p.1 = k₀
    · rw [if_neg (by simp [hp]), ih]
      have hk : ¬ k = p.1 := fun h => hne (h.trans hp)
      simp [lookupA, hk]
    · rw [if_pos (by simp [hp])]
      by_cases hk : k = p.1
      · simp [lookupA, hk]
      · simp only [lookupA]
        rw [ih]

theorem recorded_step_mono (l : JsClassStorage) (e : LoadEvent) (src : String)
    (h : l.recorded src = true) : (l.step e).recorded src = true := by
  cases e with
  | req names s =>
    simp only [JsClassStorage.step, JsClassStorage.load]
    by_cases hr : l.recorded s
    · simp [hr, h]
    · simp only [hr, Bool.false_eq_true, if_false]
      by_cases hs : src = s
      · subst hs
        simp [JsClassStorage.recorded, lookupA]
      · simp only [JsClassStorage.recorded, lookupA, hs, if_false] at *
        exact h
  | done s =>
    simp only [JsClassStorage.step, JsClassStorage.complete]
    cases hp : lookupA s l.pending with
    | none => exact h
    | some names =>
      by_cases hs : src = s
      · subst hs
        simp [JsClassStorage.recorded, lookupA]
      · simp only [JsClassStorage.recorded] at *
        rw [lookupA_filter_ne src s _ hs]
        simp only [lookupA, hs, if_false]
        rcases Bool.or_eq_true_iff.mp h with h1 | h1
        · simp [h1]
        · simp [h1]

theorem fetches_complete (l : JsClassStorage) (s : String) :
    (l.complete s).fetches = l.fetches := by
  simp only [JsClassStorage.complete]
  cases lookupA s l.pending <;> rfl

theorem recorded_complete_ne (l : JsClassStorage) (s src : String) (hs : src ≠ s) :
    (l.complete s).recorded src = l.recorded src := by
  simp only [JsClassStorage.complete]
  cases hp : lookupA s l.pending with
  | none => rfl
  | some names =>
    simp only [JsClassStorage.recorded, lookupA_filter_ne src s _ hs, lookupA]
    rw [if_neg hs]

theorem fetchInv_step (l : JsClassStorage) (e : LoadEvent) (h : FetchInv l) :
    FetchInv (l.step e) := by
  cases e with
  | req names s =>
    simp only [JsClassStorage.step, JsClassStorage.load]
    by_cases hr : l.recorded s = true
    · rw [if_pos hr]
      exact h
    · have hr' : l.recorded s = false := Bool.eq_false_iff.mpr hr
      rw [if_neg hr]
      intro src
      by_cases hs : src = s
      · subst hs
        refine ⟨fun _ => ?_, fun hfalse => ?_⟩
        · have h0 : countS src l.fetches = 0 := (h src).2 hr'
          simp [countS, h0]
        · exfalso
          simp [JsClassStorage.recorded, lookupA] at hfalse
      · have hs' : ¬ (s = src) := fun hh => hs hh.symm
        refine ⟨fun hrec => ?_, fun hrec => ?_⟩
        · have hx : l.recorded src = true := by
            simpa [JsClassStorage.recorded, lookupA, hs] using hrec
          simpa [countS, hs'] using (h src).1 hx
        · have hx : l.recorded src = false := by
            simpa [JsClassStorage.recorded, lookupA, hs] using hrec
          simpa [countS, hs'] using (h src).2 hx
  | done s =>
    show FetchInv (l.complete s)
    intro src
    by_cases hs : src = s
    · subst hs
      refine ⟨fun _ => ?_, fun hfalse => ?_⟩
      · rw [fetches_complete]
        cases hrec : l.recorded src with
        | false => simp [(h src).2 hrec]
        | true => exact (h src).1 hrec
      · rw [fetches_complete]
        apply (h src).2
        cases hp : lookupA src l.pending with
        | none =>
          simp only [JsClassStorage.complete, hp] at hfalse
          exact hfalse
        | some names =>
          simp only [JsClassStorage.complete, hp] at hfalse
          simp [JsClassStorage.recorded, lookupA] at hfalse
    · refine ⟨fun hrec => ?_, fun hrec => ?_⟩
      · rw [fetches_complete]
        exact (h src).1 (by rwa [recorded_complete_ne l s src hs] at hrec)
      · rw [fetches_complete]
        exact (h src).2 (by rwa [recorded_complete_ne l s src hs] at hrec)


theorem fetchInv_run (evs : List LoadEvent) (l : JsClassStorage) (h : FetchInv l) :
    FetchInv (evs.foldl JsClassStorage.step l) := by
  induction evs generalizing l with
  | nil => exact h
  | cons e rest ih => exact ih _ (fetchInv_step l e h)

theorem fetchInv_empty : FetchInv JsClassStorage.empty := by
  intro src
  refine ⟨fun hrec => ?_, fun _ => rfl⟩
  simp [JsClassStorage.recorded, JsClassStorage.empty, lookupA] at hrec

theorem remove_pane_nextId (s : GlobalState) (ph : Nat) :
    (s.remove_pane ph).2.nodes.nextId = s.nodes.nextId := by
  simp only [GlobalState.remove_pane, PaneHashMap.remove]
  split <;> rfl

theorem runPanes_bounds (ops : List PaneOp) (s : GlobalState) :
    (∀ a ∈ (runPanes s ops).2, s.nodes.nextId ≤ a) ∧
    (runPanes s ops).2.Pairwise (· < ·) := by
  induction ops generalizing s with
  | nil => simp [runPanes]
  | cons op rest ih =>
    cases op with
    | create x y w h html cls css =>
      simp only [runPanes, GlobalState.new_pane, PaneHashMap.insert]
      have ihs := ih { s with nodes :=
        { nextId := s.nodes.nextId + 1,
          panes := (s.nodes.nextId,
            { x := x, y := y, w := w, h := h, html := html, classes := cls,
              css := css, nodeRect := transform s.pos s.zoom x y w h }) :: s.nodes.panes } }
      refine ⟨?_, ?_⟩
      · intro a ha
        rcases List.mem_cons.mp ha with rfl | ha'
        · exact Nat.le_refl _
        · exact Nat.le_of_succ_le (ihs.1 a ha')
      · refine List.pairwise_cons.mpr ⟨fun a ha => ?_, ihs.2⟩
        exact Nat.lt_of_succ_le (ihs.1 a ha)
    | destroy ph =>
      simp only [runPanes]
      have ihs := ih (s.remove_pane ph).2
      rw [remove_pane_nextId] at ihs
      exact ihs

theorem resolveNames_preserves (names : List String) (loaded : List (String × Nat))
    (nh : Nat) (k : String) (v : Nat) (hk : lookupA k loaded = some v) :
    lookupA k (resolveNames names loaded nh).2.1 = some v := by
  induction names generalizing loaded nh with
  | nil => simpa [resolveNames] using hk
  | cons n rest ih =>
    simp only [resolveNames]
    cases hn : lookupA n loaded with
    | some hdl => exact ih loaded nh hk
    | none =>
      apply ih ((n, nh) :: loaded) (nh + 1)
      have hkn : ¬ k = n := by
        intro he
        rw [he, hn] at hk
        exact Option.noConfusion hk
      simpa [lookupA, hkn] using hk

theorem resolveNames_spec (names : List String) (loaded : List (String × Nat))
    (nh : Nat) :
    (resolveNames names loaded nh).1.length = names.length ∧
    ∀ p ∈ names.zip (resolveNames names loaded nh).1,
      lookupA p.1 (resolveNames names loaded nh).2.1 = some p.2 := by
  induction names generalizing loaded nh with
  | nil => simp [resolveNames]
  | cons n rest ih =>
    simp only [resolveNames]
    cases hn : lookupA n loaded with
    | some hdl =>
      have iht := ih loaded nh
      refine ⟨by simpa using iht.1, ?_⟩
      intro p hp
      rcases List.mem_cons.mp (by simpa [List.zip] using hp) with rfl | hp'
      · exact resolveNames_preserves rest loaded nh n hdl hn
      · exact iht.2 p hp'
    | none =>
      have iht := ih ((n, nh) :: loaded) (nh + 1)
      refine ⟨by simpa using iht.1, ?_⟩
      intro p hp
      rcases List.mem_cons.mp (by simpa [List.zip] using hp) with rfl | hp'
      · refine resolveNames_preserves rest ((n, nh) :: loaded) (nh + 1) n nh ?_
        simp [lookupA]
      · exact iht.2 p hp'

/-! ### Concrete fixtures used by witnesses and counterexamples -/

/-- A body element. -/
def bodyElem : Element := { eid := "body" }

/-- A healthy uninitialized world: document with a body, no global state,
no stylesheet injected yet, injection able to succeed. -/
def w₀ : World :=
  { doc := some { byId := [], body := some bodyElem },
    state := none, stylesInjected := 0, styleOk := true }

/-- A world whose stylesheet injection fails (state not yet installed). -/
def wBad : World :=
  { doc := some { byId := [], body := some bodyElem },
    state := none, stylesInjected := 0, styleOk := false }

/-- A world whose document has neither the looked-up ids nor a body. -/
def wEmptyDoc : World :=
  { doc := some { byId := [], body := none },
    state := none, stylesInjected := 0, styleOk := true }

/-- The world right after a successful `init` on `w₀`. -/
def wInit : World := (init w₀).2

/-! ### Claim theorems -/

/-- C1: for every source string `src`, the external module at `src` is
fetched at most once over any trace of load requests and fetch
completions; a `load` whose `src` is already recorded (pending or
completed) changes nothing — it reuses the recorded load instead of
issuing a second fetch — and every requester for `src` receives the one
future keyed by `src`, hence the same eventual set of class handles. -/
theorem load_fetches_at_most_once (evs : List LoadEvent) (src : String) :
    countS src (runLoader evs).fetches ≤ 1
    ∧ (∀ names, (runLoader evs).recorded src = true →
        ((runLoader evs).load names src).2 = runLoader evs)
    ∧ (∀ names, ((runLoader evs).load names src).1 = Except.ok src) := by
  have hinv : FetchInv (runLoader evs) := fetchInv_run evs _ fetchInv_empty
  refine ⟨?_, ?_, ?_⟩
  · cases hrec : (runLoader evs).recorded src with
    | true => exact (hinv src).1 hrec
    | false => simp [(hinv src).2 hrec]
  · intro names hrec
    simp [JsClassStorage.load, hrec]
  · intro names
    simp only [JsClassStorage.load]
    split <;> rfl

/-- Witness for C1: after a first `load(["A"], "x.js")`, a second load of
`"x.js"` (even with different names) leaves the registry unchanged and
receives the shared future; exactly one fetch of `"x.js"` happened. -/
theorem load_fetches_at_most_once_witness :
    countS "x.js" (runLoader [LoadEvent.req ["A"] "x.js"]).fetches ≤ 1
    ∧ (runLoader [LoadEvent.req ["A"] "x.js"]).recorded "x.js" = true
    ∧ ((runLoader [LoadEvent.req ["A"] "x.js"]).load ["B"] "x.js").2 =
        runLoader [LoadEvent.req ["A"] "x.js"]
    ∧ ((runLoader [LoadEvent.req ["A"] "x.js"]).load ["B"] "x.js").1 =
        Except.ok "x.js" := by
  have t := load_fetches_at_most_once [LoadEvent.req ["A"] "x.js"] "x.js"
  exact ⟨t.1, by decide, t.2.1 ["B"] (by decide), t.2.2 ["B"]⟩

/-- C2: over every sequence of pane creations interleaved with removals,
the handles issued by `new_pane` are strictly increasing in order of
issuance — hence each handle is distinct from every handle issued
before it, including handles of already removed panes, and no handle is
ever reused. -/
theorem new_pane_handles_unique (s : GlobalState) (ops : List PaneOp) :
    (runPanes s ops).2.Pairwise (· < ·) ∧ (runPanes s ops).2.Nodup := by
  have hb := runPanes_bounds ops s
  exact ⟨hb.2, hb.2.imp fun hlt => Nat.ne_of_lt hlt⟩

/-- C10: `new(x, y, w, h, html)` and
`new_styled(x, y, w, h, html, [], [])` perform the same call to
`new_pane` — same coordinates and html, empty class string, empty
inline-css string — and return the same result on every world. -/
theorem new_eq_new_styled_empty (x y : Int) (w h : Nat) (html : String)
    (wd : World) :
    new x y w h html wd = new_styled x y w h html [] [] wd := rfl

/-- C3 (amended): with no global state installed, `new`, `new_styled`,
`load_js_classes` and `from_js_class` return the typed `NotInitialized`
error to their caller; `JsClass::preregistered`, however, `.unwrap()`s
the accessor's result and therefore panics (the process aborts) instead
of surfacing the `NotInitialized` error it received. -/
theorem not_initialized_behaviour (wd : World) (hs : wd.state = none)
    (x y : Int) (w h : Nat) (html : String) (classes : List String)
    (css : List (String × String)) (names : List String) (name src : String)
    (ch : Nat) :
    (new x y w h html wd).1 = Except.error DivError.NotInitialized
  ∧ (new_styled x y w h html classes css wd).1 = Except.error DivError.NotInitialized
  ∧ (load_js_classes names src wd).1 = Except.error DivError.NotInitialized
  ∧ (from_js_class x y w h ch wd).1 = Except.error DivError.NotInitialized
  ∧ preregisteredRaw name wd = Except.error DivError.NotInitialized
  ∧ preregistered name wd = none := by
  simp [new, new_styled, load_js_classes, from_js_class, preregistered,
    preregisteredRaw, state.exec_mut, hs, unwrapRes]

/-- Counterexample to C3 as stated: on a world with no installed state,
`JsClass::preregistered` does not return the `NotInitialized` error it
gets from the state accessor — the `.unwrap()` in `lib.rs` turns it into
a panic (the `none` of the panic channel). -/
theorem preregistered_panics_before_init :
    preregisteredRaw "X" w₀ = Except.error DivError.NotInitialized
  ∧ preregistered "X" w₀ = none := ⟨rfl, rfl⟩

/-- Witness for the amended C3 at a concrete uninitialized world. -/
theorem not_initialized_behaviour_witness :
    w₀.state = none
  ∧ (new 1 2 3 4 "<p>" w₀).1 = Except.error DivError.NotInitialized
  ∧ (new_styled 1 2 3 4 "<p>" ["c"] [("k", "v")] w₀).1
      = Except.error DivError.NotInitialized
  ∧ (load_js_classes ["A"] "x.js" w₀).1 = Except.error DivError.NotInitialized
  ∧ (from_js_class 1 2 3 4 0 w₀).1 = Except.error DivError.NotInitialized
  ∧ preregisteredRaw "Y" w₀ = Except.error DivError.NotInitialized
  ∧ preregistered "Y" w₀ = none := by
  have t := not_initialized_behaviour w₀ rfl 1 2 3 4 "<p>" ["c"] [("k", "v")]
    ["A"] "Y" "x.js" 0
  exact ⟨rfl, t.1, t.2.1, t.2.2.1, t.2.2.2.1, t.2.2.2.2.1, t.2.2.2.2.2⟩

/-- C5: a second initialization without teardown fails with
`AlreadyInitialized` and performs no stylesheet injection (the world is
returned unchanged), while an initialization whose state installation
succeeds performs the stylesheet-injection side effect exactly once. -/
theorem init_second_call_fails (wd : World) (root : Element)
    (pos : Int × Int) (size : Option (Nat × Nat)) :
    (∀ s, wd.state = some s →
        init_ex_with_element root pos size wd
          = (Except.error DivError.AlreadyInitialized, wd))
  ∧ (wd.state = none → wd.styleOk = true →
        (init_ex_with_element root pos size wd).1 = Except.ok ()
      ∧ (init_ex_with_element root pos size wd).2.stylesInjected
          = wd.stylesInjected + 1) := by
  constructor
  · intro s hs
    simp [init_ex_with_element, state.set_state, hs]
  · intro h1 h2
    simp [init_ex_with_element, state.set_state, add_div_styles_to_document,
      init_div_rs, h1, h2]

/-- Witness for C5: a first initialization on a fresh world succeeds and
injects the stylesheet once; repeating it fails with
`AlreadyInitialized` and leaves the injection count at one. -/
theorem init_second_call_fails_witness :
    w₀.state = none ∧ w₀.styleOk = true
  ∧ (init_ex_with_element bodyElem (0, 0) none w₀).1 = Except.ok ()
  ∧ (init_ex_with_element bodyElem (0, 0) none w₀).2.stylesInjected
      = w₀.stylesInjected + 1
  ∧ (init_ex_with_element bodyElem (0, 0) none w₀).2.state
      = some { root := bodyElem, nodes := PaneHashMap.empty, pos := (0, 0),
               size := none, zoom := (1, 1), classes := JsClassStorage.empty }
  ∧ init_ex_with_element bodyElem (0, 0) none
        (init_ex_with_element bodyElem (0, 0) none w₀).2
      = (Except.error DivError.AlreadyInitialized,
         (init_ex_with_element bodyElem (0, 0) none w₀).2) := by
  have t1 := (init_second_call_fails w₀ bodyElem (0, 0) none).2 rfl rfl
  have t2 := (init_second_call_fails
      (init_ex_with_element bodyElem (0, 0) none w₀).2 bodyElem (0, 0) none).1
      { root := bodyElem, nodes := PaneHashMap.empty, pos := (0, 0),
        size := none, zoom := (1, 1), classes := JsClassStorage.empty } rfl
  exact ⟨rfl, rfl, t1.1, t1.2, rfl, t2⟩

/-- C6 (amended): a failure of `init_ex_with_element` in a step that runs
before the state object is installed leaves no state behind (see the
`MissingRoot`/`MissingBody` theorem for C7), but a failure of the
stylesheet-injection step — which runs after `set_state` succeeded — is
not rolled back: the error is returned while the freshly installed state
remains, and subsequent operations operate on it instead of failing with
`NotInitialized`. -/
theorem init_style_failure_keeps_state (wd : World) (root : Element)
    (pos : Int × Int) (size : Option (Nat × Nat))
    (h1 : wd.state = none) (h2 : wd.styleOk = false) :
    (init_ex_with_element root pos size wd).1 = Except.error DivError.Undefined
  ∧ (init_ex_with_element root pos size wd).2.state
      = some { root := root, nodes := PaneHashMap.empty, pos := pos,
               size := size, zoom := (1, 1), classes := JsClassStorage.empty }
  ∧ (new 0 0 1 1 "" (init_ex_with_element root pos size wd).2).1
      = Except.ok 0 := by
  simp [init_ex_with_element, state.set_state, add_div_styles_to_document,
    h1, h2, new, state.exec_mut, GlobalState.new_pane, PaneHashMap.insert,
    PaneHashMap.empty]

/-- Counterexample to C6 as stated: when the stylesheet-injection step
fails after the state object was installed, `init_ex_with_element`
returns an error yet the global state remains installed, and a
subsequent `new` succeeds instead of failing with `NotInitialized`. -/
theorem init_error_state_remains :
    (init_ex_with_element bodyElem (0, 0) none wBad).1
      = Except.error DivError.Undefined
  ∧ (init_ex_with_element bodyElem (0, 0) none wBad).2.state
      = some { root := bodyElem, nodes := PaneHashMap.empty, pos := (0, 0),
               size := none, zoom := (1, 1), classes := JsClassStorage.empty }
  ∧ (new 0 0 1 1 "" (init_ex_with_element bodyElem (0, 0) none wBad).2).1
      = Except.ok 0 := ⟨rfl, rfl, rfl⟩

/-- Witness for the amended C6 at a concrete world whose stylesheet
injection fails. -/
theorem init_style_failure_keeps_state_witness :
    wBad.state = none ∧ wBad.styleOk = false
  ∧ (init_ex_with_element bodyElem (1, 2) none wBad).1
      = Except.error DivError.Undefined
  ∧ (init_ex_with_element bodyElem (1, 2) none wBad).2.state
      = some { root := bodyElem, nodes := PaneHashMap.empty, pos := (1, 2),
               size := none, zoom := (1, 1), classes := JsClassStorage.empty }
  ∧ (new 0 0 1 1 "" (init_ex_with_element bodyElem (1, 2) none wBad).2).1
      = Except.ok 0 := by
  have t := init_style_failure_keeps_state wBad bodyElem (1, 2) none rfl rfl
  exact ⟨rfl, rfl, t.1, t.2.1, t.2.2⟩

/-- C7: `init_ex(Some(id), ..)` fails with `MissingRoot(id)` carrying the
requested id when the document has no element with that id, and
`init_ex(None, ..)` fails with `MissingBody` when the document has no
body; in both cases the world is returned unchanged — no state is
installed and no mount is performed. -/
theorem init_missing_target (wd : World) (d : Doc) (pos : Int × Int)
    (size : Option (Nat × Nat)) (hd : wd.doc = some d) :
    (∀ i, lookupA i d.byId = none →
        init_ex (some i) pos size wd
          = (Except.error (DivError.MissingRoot i), wd))
  ∧ (d.body = none →
        init_ex none pos size wd = (Except.error DivError.MissingBody, wd)) := by
  constructor
  · intro i hi
    simp [init_ex, get_root, doc, hd, hi]
  · intro hb
    simp [init_ex, get_root, doc, hd, hb]

/-- Witness for C7 on a document with no elements and no body. -/
theorem init_missing_target_witness :
    wEmptyDoc.doc = some { byId := [], body := none }
  ∧ lookupA "root-id" ([] : List (String × Element)) = none
  ∧ init_ex (some "root-id") (0, 0) none wEmptyDoc
      = (Except.error (DivError.MissingRoot "root-id"), wEmptyDoc)
  ∧ init_ex none (0, 0) none wEmptyDoc
      = (Except.error DivError.MissingBody, wEmptyDoc) := by
  have t := init_missing_target wEmptyDoc { byId := [], body := none }
    (0, 0) none rfl
  exact ⟨rfl, rfl, t.1 "root-id" rfl, t.2 rfl⟩

/-- C4: every pane's rendered rectangle is the Coordinate Transform of
its logical rectangle — `final_x = x*zoom_x + pos_x`,
`final_y = y*zoom_y + pos_y`, `final_w = w*zoom_x`, `final_h = h*zoom_y`;
concretely, after `init_ex(None, (10,20), Some((800,600)))` and
`new_pane(0,0,100,50,"<b>hi</b>")` the pane renders at `(10,20,100,50)`
under the default zoom, and at `(10,20,200,100)` after
`set_zoom(2.0,2.0)` — the offset is not scaled by the zoom. -/
theorem pane_rect_transform :
    (∀ (s : GlobalState) (x y : Int) (w h : Nat) (html cls css : String),
        ((s.new_pane x y w h html cls css).2.nodes.panes.head?).map
            (fun kp => kp.2.nodeRect)
          = some (transform s.pos s.zoom x y w h))
  ∧ renderedRect 0 (new 0 0 100 50 "<b>hi</b>"
        (init_ex none (10, 20) (some (800, 600)) w₀).2).2
      = some (10, 20, 100, 50)
  ∧ renderedRect 0 (set_zoom 2 2 (new 0 0 100 50 "<b>hi</b>"
        (init_ex none (10, 20) (some (800, 600)) w₀).2).2).2
      = some (10, 20, 200, 100) := by
  refine ⟨fun s x y w h html cls css => rfl, ?_, ?_⟩ <;>
    simp [renderedRect, new, set_zoom, init_ex, init_ex_with_element, get_root,
      doc, w₀, bodyElem, state.set_state, add_div_styles_to_document,
      init_div_rs, state.exec_mut, GlobalState.new_pane, GlobalState.set_zoom,
      PaneHashMap.insert, PaneHashMap.empty, JsClassStorage.empty, transform,
      lookupA]
  norm_num

/-- C8: a `load` that initiates the fetch for `src` resolves — once the
fetch completes — to exactly one class handle per requested name, in the
order of the `names` argument, each the handle registered for that name;
in particular for a single name the value `load_js_class` resolves to
(`classes.await[0]` in `lib.rs`) is exactly the handle registered for
that name, the first element of the list `load_js_classes` produces. -/
theorem load_resolves_in_order (l : JsClassStorage) (names : List String)
    (src : String) (hfresh : l.recorded src = false) :
    ∃ hs : List Nat,
      futureValue src ((l.load names src).2.complete src) = some hs
    ∧ hs.length = names.length
    ∧ (∀ p ∈ names.zip hs,
        lookupA p.1 ((l.load names src).2.complete src).loaded = some p.2)
    ∧ (∀ name, names = [name] →
        load_js_class_value src ((l.load names src).2.complete src)
          = lookupA name ((l.load names src).2.complete src).loaded) := by
  have hne : ¬ (l.recorded src = true) := by simp [hfresh]
  have hl : (l.load names src).2
      = { l with pending := (src, names) :: l.pending,
                 fetches := src :: l.fetches } := by
    simp only [JsClassStorage.load]
    rw [if_neg hne]
  have hc : (l.load names src).2.complete src
      = { loaded := (resolveNames names l.loaded l.nextHandle).2.1,
          pending := ((src, names) :: l.pending).filter (fun kv => kv.1 ≠ src),
          completed := (src, (resolveNames names l.loaded l.nextHandle).1)
            :: l.completed,
          fetches := src :: l.fetches,
          nextHandle := (resolveNames names l.loaded l.nextHandle).2.2 } := by
    rw [hl]
    simp [JsClassStorage.complete, lookupA]
  refine ⟨(resolveNames names l.loaded l.nextHandle).1, ?_, ?_, ?_, ?_⟩
  · rw [hc]
    simp [futureValue, lookupA]
  · exact (resolveNames_spec names l.loaded l.nextHandle).1
  · intro p hp
    rw [hc]
    exact (resolveNames_spec names l.loaded l.nextHandle).2 p hp
  · intro name hn
    subst hn
    rw [hc]
    simp only [load_js_class_value, futureValue, lookupA, if_pos rfl]
    cases hr1 : (resolveNames [name] l.loaded l.nextHandle).1 with
    | nil =>
      have hlen := (resolveNames_spec [name] l.loaded l.nextHandle).1
      rw [hr1] at hlen
      simp at hlen
    | cons h0 t =>
      have hlen := (resolveNames_spec [name] l.loaded l.nextHandle).1
      rw [hr1] at hlen
      cases t with
      | cons h1 t' => simp at hlen
      | nil =>
        have hz := (resolveNames_spec [name] l.loaded l.nextHandle).2
          (name, h0) (by rw [hr1]; simp)
        simp [hr1, hz]

/-- Witness for C8: loading `["Foo", "Bar"]` from the fresh source
`"foo.js"` resolves to two handles, in order, registered for `"Foo"` and
`"Bar"` respectively. -/
theorem load_resolves_in_order_witness :
    JsClassStorage.empty.recorded "foo.js" = false
  ∧ ∃ hs : List Nat,
      futureValue "foo.js"
          ((JsClassStorage.empty.load ["Foo", "Bar"] "foo.js").2.complete
            "foo.js")
        = some hs
    ∧ hs.length = (["Foo", "Bar"] : List String).length
    ∧ (∀ p ∈ (["Foo", "Bar"] : List String).zip hs,
        lookupA p.1 ((JsClassStorage.empty.load ["Foo", "Bar"]
          "foo.js").2.complete "foo.js").loaded = some p.2)
    ∧ (∀ name, (["Foo", "Bar"] : List String) = [name] →
        load_js_class_value "foo.js" ((JsClassStorage.empty.load ["Foo", "Bar"]
            "foo.js").2.complete "foo.js")
          = lookupA name ((JsClassStorage.empty.load ["Foo", "Bar"]
            "foo.js").2.complete "foo.js").loaded) :=
  ⟨rfl, load_resolves_in_order JsClassStorage.empty ["Foo", "Bar"] "foo.js" rfl⟩

/-- C9: when `from_js_class` fails because the class-handle lookup fails
(unknown class handle), the error is returned only after the new pane
was created and stored: the resulting state still holds the freshly
created pane (with empty html), one more than before — the pane is not
rolled back. -/
theorem from_js_class_keeps_pane (wd : World) (s : GlobalState) (ch : Nat)
    (x y : Int) (w h : Nat)
    (hst : wd.state = some s)
    (hch : s.classes.loaded.any (fun nv => nv.2 == ch) = false) :
    (from_js_class x y w h ch wd).1 = Except.error DivError.UnknownClassHandle
  ∧ ∃ s' : GlobalState,
      (from_js_class x y w h ch wd).2.state = some s'
    ∧ s'.nodes.panes.length = s.nodes.panes.length + 1
    ∧ lookupA s.nodes.nextId s'.nodes.panes
        = some { x := x, y := y, w := w, h := h, html := "", classes := "",
                 css := "", nodeRect := transform s.pos s.zoom x y w h } := by
  refine ⟨?_, ?_⟩
  · simp [from_js_class, new, parent_element, state.get_class, state.exec_mut,
      hst, GlobalState.new_pane, PaneHashMap.insert, hch]
  · refine ⟨(s.new_pane x y w h "" "" "").2, ?_, ?_, ?_⟩
    · simp [from_js_class, new, parent_element, state.get_class, state.exec_mut,
        hst, GlobalState.new_pane, PaneHashMap.insert, hch]
    · simp [GlobalState.new_pane, PaneHashMap.insert]
    · simp [GlobalState.new_pane, PaneHashMap.insert, lookupA]

/-- Witness for C9: on a freshly initialized world (empty class
registry) `from_js_class` with class handle `0` fails with
`UnknownClassHandle`, yet pane storage has gained the empty-html pane. -/
theorem from_js_class_keeps_pane_witness :
    wInit.state
      = some { root := bodyElem, nodes := PaneHashMap.empty, pos := (0, 0),
               size := none, zoom := (1, 1), classes := JsClassStorage.empty }
  ∧ JsClassStorage.empty.loaded.any (fun nv => nv.2 == 0) = false
  ∧ (from_js_class 1 2 30 40 0 wInit).1
      = Except.error DivError.UnknownClassHandle
  ∧ ∃ s' : GlobalState,
      (from_js_class 1 2 30 40 0 wInit).2.state = some s'
    ∧ s'.nodes.panes.length = PaneHashMap.empty.panes.length + 1
    ∧ lookupA PaneHashMap.empty.nextId s'.nodes.panes
        = some { x := 1, y := 2, w := 30, h := 40, html := "", classes := "",
                 css := "", nodeRect := transform (0, 0) (1, 1) 1 2 30 40 } := by
  have t := from_js_class_keeps_pane wInit
    { root := bodyElem, nodes := PaneHashMap.empty, pos := (0, 0),
      size := none, zoom := (1, 1), classes := JsClassStorage.empty }
    0 1 2 30 40 rfl rfl
  exact ⟨rfl, rfl, t.1, t.2⟩
